import Mathlib

/-!
Verification of the space-debris-tracker backend (`src/backend/app.py`).

The embedding models Python float values exactly as rationals (`ℚ`): every
numeric literal in the source (`0.1`, `3.14159`, `398600.4418`, thresholds)
is an exact decimal, and the discriminating behaviour of every claim is a
comparison or a control-flow decision, which exact arithmetic reproduces.
A raw upstream field is absent, a numeric value (numbers and numeric strings,
modelled as the rational they parse to), or a value on which Python's
`float()` raises (`PyVal.nonNumeric`).  Python's `round` rounds half to even;
`pyRound` below models that.  The single irrational step of the source, the
cube root `(mu / (n*n)) ** (1/3)` in `calculate_altitude`, is modelled over
`ℝ` with the exact exponent 1/3.
-/

/-- A Python value stored in a raw upstream field, as far as the numeric
conversions of the source can see it: either a value `float()` converts
(given by the rational it converts to) or one on which `float()` raises. -/
inductive PyVal where
  | num (q : ℚ)
  | nonNumeric
deriving DecidableEq, Repr

/-- A raw tracking record from the upstream catalog: the fields of the
upstream schema that `app.py` reads.  `none` is an absent key.  String-valued
passthrough fields are kept as strings. -/
structure RawRecord where
  norad_cat_id : Option PyVal := none
  object_name : Option String := none
  country_code : Option String := none
  mean_motion : Option PyVal := none
  eccentricity : Option PyVal := none
  apogee : Option PyVal := none
  perigee : Option PyVal := none
  rcs_size : Option String := none
  launch_date : Option String := none
  epoch : Option String := none
deriving DecidableEq, Repr

/-- `float(obj.get(key, 0))`: an absent key defaults to `0`, a numeric value
converts, and a non-numeric value raises (`none`). -/
def floatOf : Option PyVal → Option ℚ
  | none => some 0
  | some (PyVal.num q) => some q
  | some PyVal.nonNumeric => none

/-- Python's built-in `round` to an integer: round half to even. -/
def pyRound {α : Type} [LinearOrderedField α] [FloorRing α] (x : α) : ℤ :=
  if x - ⌊x⌋ < 1/2 then ⌊x⌋
  else if 1/2 < x - ⌊x⌋ then ⌊x⌋ + 1
  else if ⌊x⌋ % 2 = 0 then ⌊x⌋ else ⌊x⌋ + 1

/-- Python's `round(x, 2)`: round to two decimal places, half to even. -/
def pyRound2 (q : ℚ) : ℚ := (pyRound (q * 100) : ℚ) / 100

theorem pyRound_eq_of_lt_half {α : Type} [LinearOrderedField α] [FloorRing α]
    (x : α) (k : ℤ) (hk : (k : α) ≤ x) (hk2 : x < k + 1/2) :
    pyRound x = k := by
  have hfl : ⌊x⌋ = k := by
    apply Int.floor_eq_iff.mpr
    constructor
    · exact hk
    · calc x < k + 1/2 := hk2
        _ ≤ k + 1 := by norm_num
  unfold pyRound
  rw [hfl]
  have : x - (k : α) < 1/2 := by linarith
  rw [if_pos this]

theorem pyRound_eq_of_half_lt {α : Type} [LinearOrderedField α] [FloorRing α]
    (x : α) (k : ℤ) (hk : (k : α) + 1/2 < x) (hk2 : x < k + 1) :
    pyRound x = k + 1 := by
  have hfl : ⌊x⌋ = k := by
    apply Int.floor_eq_iff.mpr
    refine ⟨by linarith, hk2⟩
  unfold pyRound
  rw [hfl]
  have h1 : ¬(x - (k : α) < 1/2) := by linarith
  have h2 : (1:α)/2 < x - k := by linarith
  rw [if_neg h1, if_pos h2]

theorem pyRound_nonneg {α : Type} [LinearOrderedField α] [FloorRing α]
    (x : α) (hx : 0 ≤ x) : 0 ≤ pyRound x := by
  have h : 0 ≤ ⌊x⌋ := Int.floor_nonneg.mpr hx
  unfold pyRound
  split
  · exact h
  · split
    · omega
    · split
      · exact h
      · omega

theorem pyRound_nonpos {α : Type} [LinearOrderedField α] [FloorRing α]
    (x : α) (hx : x ≤ 0) : pyRound x ≤ 0 := by
  unfold pyRound
  by_cases hzero : x = 0
  · subst hzero
    norm_num
  have hneg : x < 0 := lt_of_le_of_ne hx hzero
  have hfl : ⌊x⌋ ≤ -1 := by
    have : ⌊x⌋ < 0 := Int.floor_lt.mpr (by simpa using hneg)
    omega
  split
  · omega
  · split
    · omega
    · split
      · omega
      · omega

theorem pyRound_max_zero {α : Type} [LinearOrderedField α] [FloorRing α]
    (x : α) : pyRound (max x 0) = max (pyRound x) 0 := by
  rcases le_total x 0 with h | h
  · rw [max_eq_right h, max_eq_right (pyRound_nonpos x h)]
    have : pyRound (0 : α) = 0 := by
      unfold pyRound
      norm_num
    rw [this]
  · rw [max_eq_left h, max_eq_left (pyRound_nonneg x h)]

/-- `calculate_risk_level(obj)` from `app.py`: HIGH when mean motion exceeds
15 and eccentricity exceeds 0.1, else MEDIUM when mean motion exceeds 12,
else LOW; any `float()` fault yields LOW. -/
def calculate_risk_level (obj : RawRecord) : String :=
  match floatOf obj.mean_motion, floatOf obj.eccentricity with
  | some mean_motion, some eccentricity =>
      if 15 < mean_motion ∧ (0.1 : ℚ) < eccentricity then "HIGH"
      else if 12 < mean_motion then "MEDIUM"
      else "LOW"
  | _, _ => "LOW"

/-- `classify_orbit(obj)` from `app.py`: LEO above mean motion 11, MEO above
1, GEO otherwise; any `float()` fault yields LEO. -/
def classify_orbit (obj : RawRecord) : String :=
  match floatOf obj.mean_motion with
  | some mean_motion =>
      if 11 < mean_motion then "LEO"
      else if 1 < mean_motion then "MEO"
      else "GEO"
  | none => "LEO"

/-- The Kepler step of `calculate_altitude`:
`semi_major_axis = (mu / (n * n)) ** (1/3)` with
`n = mean_motion * 2 * 3.14159 / 86400` and `mu = 398600.4418`, over the
reals with an exact cube root.  Note the source multiplies by the literal
`3.14159`, not by π. -/
noncomputable def semiMajorAxis (mean_motion : ℚ) : ℝ :=
  let mu : ℝ := 398600.4418
  let n : ℝ := (mean_motion : ℝ) * 2 * 3.14159 / 86400
  (mu / (n * n)) ^ ((1 : ℝ)/3)

/-- `calculate_altitude(obj)` from `app.py`.  All three `float()` calls run
before any branch, so a fault in any of them (apogee, perigee, or mean
motion) lands in the `except` arm and returns 0.  Otherwise: average of
apogee and perigee when both positive, else the Kepler estimate
`round(max(semi_major_axis - 6371, 0))` when mean motion is positive,
else 0. -/
noncomputable def calculate_altitude (obj : RawRecord) : ℤ :=
  match floatOf obj.apogee, floatOf obj.perigee, floatOf obj.mean_motion with
  | some apogee, some perigee, some mean_motion =>
      if 0 < apogee ∧ 0 < perigee then
        pyRound ((apogee + perigee) / 2)
      else if 0 < mean_motion then
        pyRound (max (semiMajorAxis mean_motion - 6371) (0 : ℝ))
      else 0
  | _, _, _ => 0

/-- One entry of the `processed_objects` list built by the `/api/debris`
handler. -/
structure ProcessedObj where
  id : Option PyVal
  name : String
  country : String
  altitude : ℤ
  velocity : ℚ
  risk_level : String
  orbit_type : String
  size : String
  launch_date : String
  epoch : Option String

/-- The body of the per-record `try` block in `get_debris`.  The only
statement inside it that can raise is the `float()` in the velocity line
(`calculate_altitude`, `calculate_risk_level` and `classify_orbit` each
swallow their own faults); a raise is caught by the per-record `except`,
which skips the record (`none`). -/
noncomputable def process_record (obj : RawRecord) : Option ProcessedObj :=
  match floatOf obj.mean_motion with
  | none => none
  | some mean_motion => some {
      id := obj.norad_cat_id
      name := obj.object_name.getD "Unknown Object"
      country := obj.country_code.getD "Unknown"
      altitude := calculate_altitude obj
      velocity := pyRound2 (mean_motion * 0.1)
      risk_level := calculate_risk_level obj
      orbit_type := classify_orbit obj
      size := obj.rcs_size.getD "Unknown"
      launch_date := obj.launch_date.getD "Unknown"
      epoch := obj.epoch }

/-- The enrichment loop of `get_debris`: each record is processed inside its
own `try`; records whose processing raises are skipped, the rest are appended
in input order. -/
noncomputable def processObjects (raw : List RawRecord) : List ProcessedObj :=
  raw.filterMap process_record

/-- The mutable state of the module-level `SpaceTrackAPI` instance that the
claims concern: its `authenticated` flag. -/
structure SessionState where
  authenticated : Bool
deriving DecidableEq, Repr

/-- `SpaceTrackAPI.__init__`: the flag starts `False`. -/
def initState : SessionState := ⟨false⟩

/-- The outcome of one HTTP request to the upstream provider, as the source
can observe it: a transport-level exception, or a response with a status
code and (for the catalog query) a body; `none` as body models a
`response.json()` that raises. -/
inductive UpResponse where
  | transportError
  | status (code : ℕ) (body : Option (List RawRecord))
deriving DecidableEq

/-- An outbound HTTP request issued by the session, recorded so that
"authenticate first", "no query after failed login" and "no retry" are
provable statements about the trace. -/
inductive Event where
  | loginRequest
  | queryRequest
deriving DecidableEq, Repr

/-- `SpaceTrackAPI.authenticate`: posts the login form once.  On status 200
it sets `authenticated = True` and returns `True`; on any other status or a
transport exception it returns `False` and leaves the flag untouched.
Result: (new state, return value, requests issued). -/
def authenticate (s : SessionState) (resp : UpResponse) :
    SessionState × Bool × List Event :=
  match resp with
  | UpResponse.status code _ =>
      if code = 200 then (⟨true⟩, true, [Event.loginRequest])
      else (s, false, [Event.loginRequest])
  | UpResponse.transportError => (s, false, [Event.loginRequest])

/-- The query part of `get_debris_data`: `response.json()` on status 200
(`none` when the body fails to parse, caught by the `except`), `None` on any
other status or transport exception. -/
def runQuery : UpResponse → Option (List RawRecord)
  | UpResponse.status code body => if code = 200 then body else none
  | UpResponse.transportError => none

/-- `SpaceTrackAPI.get_debris_data`: if not authenticated, first call
`authenticate()` and return `None` immediately when it fails (no query
issued); otherwise issue the catalog query.  `loginResp` and `queryResp` are
the upstream's answers to the login and query requests, consulted only if
the corresponding request is issued. -/
def get_debris_data (s : SessionState) (loginResp queryResp : UpResponse) :
    SessionState × Option (List RawRecord) × List Event :=
  if s.authenticated then
    (s, runQuery queryResp, [Event.queryRequest])
  else
    match authenticate s loginResp with
    | (s1, true, ev) => (s1, runQuery queryResp, ev ++ [Event.queryRequest])
    | (s1, false, ev) => (s1, none, ev)

/-- The payload the `/api/debris` route returns: either the error object
with its HTTP status, or the success envelope (its wall-clock timestamp and
constant `data_source` string omitted). -/
inductive DebrisResponse where
  | error (msg : String) (httpStatus : ℕ)
  | success (total_count : ℕ) (objects : List ProcessedObj)

/-- The `/api/debris` handler `get_debris`: fetch, then `if not raw_data:`
— both `None` and the empty list are falsy in Python, so both take the
500-error arm — else enrich and wrap. -/
noncomputable def get_debris (s : SessionState) (loginResp queryResp : UpResponse) :
    SessionState × DebrisResponse :=
  let r := get_debris_data s loginResp queryResp
  match r.2.1 with
  | none => (r.1, DebrisResponse.error "Failed to fetch real space data" 500)
  | some [] => (r.1, DebrisResponse.error "Failed to fetch real space data" 500)
  | some raw =>
      (r.1, DebrisResponse.success (processObjects raw).length (processObjects raw))

/-- C4: for every record, riskLevel returns HIGH iff mean motion > 15 and
eccentricity > 0.1 (both strict, so the boundary values 15 and 0.1 never
yield HIGH); otherwise MEDIUM iff mean motion > 12; otherwise LOW; missing
fields are read as 0 (`floatOf` maps an absent field to `some 0`) and any
conversion fault yields LOW. -/
theorem risk_level_characterization (obj : RawRecord) :
    (calculate_risk_level obj = "HIGH" ↔
      ∃ mm ecc : ℚ, floatOf obj.mean_motion = some mm ∧
        floatOf obj.eccentricity = some ecc ∧ 15 < mm ∧ (0.1 : ℚ) < ecc)
    ∧ (calculate_risk_level obj = "MEDIUM" ↔
      ∃ mm ecc : ℚ, floatOf obj.mean_motion = some mm ∧
        floatOf obj.eccentricity = some ecc ∧
        ¬(15 < mm ∧ (0.1 : ℚ) < ecc) ∧ 12 < mm)
    ∧ ((floatOf obj.mean_motion = none ∨ floatOf obj.eccentricity = none) →
      calculate_risk_level obj = "LOW") := by
  cases hm : floatOf obj.mean_motion with
  | none =>
      refine ⟨?_, ?_, fun _ => ?_⟩ <;> simp [calculate_risk_level, hm]
  | some mm =>
      cases he : floatOf obj.eccentricity with
      | none =>
          refine ⟨?_, ?_, fun _ => ?_⟩ <;> simp [calculate_risk_level, hm, he]
      | some ecc =>
          unfold calculate_risk_level
          rw [hm, he]
          dsimp only
          by_cases h1 : 15 < mm ∧ (0.1 : ℚ) < ecc
          · rw [if_pos h1]
            refine ⟨?_, ?_, ?_⟩
            · simp only [true_iff]
              exact ⟨mm, ecc, rfl, rfl, h1.1, h1.2⟩
            · constructor
              · intro h
                simp at h
              · rintro ⟨mm2, ecc2, hm2, he2, hnot, _⟩
                cases hm2
                cases he2
                exact absurd h1 hnot
            · intro h
              rcases h with h | h <;> simp at h
          · rw [if_neg h1]
            by_cases h2 : 12 < mm
            · rw [if_pos h2]
              refine ⟨?_, ?_, ?_⟩
              · constructor
                · intro h
                  simp at h
                · rintro ⟨mm2, ecc2, hm2, he2, h15, h01⟩
                  cases hm2
                  cases he2
                  exact absurd ⟨h15, h01⟩ h1
              · simp only [true_iff]
                exact ⟨mm, ecc, rfl, rfl, h1, h2⟩
              · intro h
                rcases h with h | h <;> simp at h
            · rw [if_neg h2]
              refine ⟨?_, ?_, ?_⟩
              · constructor
                · intro h
                  simp at h
                · rintro ⟨mm2, ecc2, hm2, he2, h15, h01⟩
                  cases hm2
                  cases he2
                  exact absurd ⟨h15, h01⟩ h1
              · constructor
                · intro h
                  simp at h
                · rintro ⟨mm2, ecc2, hm2, he2, _, h12⟩
                  cases hm2
                  exact absurd h12 h2
              · intro _
                rfl

/-- Witness for C4: the spec scenario record (mean motion 15.5,
eccentricity 0.12) classifies HIGH. -/
theorem risk_level_characterization_witness :
    calculate_risk_level
      { mean_motion := some (PyVal.num 15.5),
        eccentricity := some (PyVal.num 0.12) } = "HIGH" := by
  apply (risk_level_characterization _).1.mpr
  exact ⟨15.5, 0.12, rfl, rfl, by norm_num, by norm_num⟩

/-- C5: for every record, orbitType returns LEO iff mean motion > 11
(exactly 11 classifies MEO), MEO iff 1 < mean motion ≤ 11, GEO otherwise
(mean motion ≤ 1, including 0, negative, and missing — an absent field is
read as 0, `some 0`); any conversion fault yields LEO. -/
theorem orbit_characterization (obj : RawRecord) :
    (classify_orbit obj = "LEO" ↔
      (floatOf obj.mean_motion = none ∨
        ∃ mm : ℚ, floatOf obj.mean_motion = some mm ∧ 11 < mm))
    ∧ (classify_orbit obj = "MEO" ↔
      ∃ mm : ℚ, floatOf obj.mean_motion = some mm ∧ 1 < mm ∧ mm ≤ 11)
    ∧ (classify_orbit obj = "GEO" ↔
      ∃ mm : ℚ, floatOf obj.mean_motion = some mm ∧ mm ≤ 1) := by
  cases hm : floatOf obj.mean_motion with
  | none =>
      refine ⟨?_, ?_, ?_⟩ <;> simp [classify_orbit, hm]
  | some mm =>
      unfold classify_orbit
      rw [hm]
      dsimp only
      by_cases h11 : 11 < mm
      · rw [if_pos h11]
        refine ⟨?_, ?_, ?_⟩
        · simp only [true_iff]
          exact Or.inr ⟨mm, rfl, h11⟩
        · constructor
          · intro h
            simp at h
          · rintro ⟨mm2, hm2, _, hle⟩
            cases hm2
            exact absurd h11 (not_lt.mpr hle)
        · constructor
          · intro h
            simp at h
          · rintro ⟨mm2, hm2, hle⟩
            cases hm2
            exact absurd h11 (not_lt.mpr (hle.trans (by norm_num)))
      · rw [if_neg h11]
        by_cases h1 : 1 < mm
        · rw [if_pos h1]
          refine ⟨?_, ?_, ?_⟩
          · constructor
            · intro h
              simp at h
            · rintro (h | ⟨mm2, hm2, hgt⟩)
              · cases h
              · cases hm2
                exact absurd hgt h11
          · simp only [true_iff]
            exact ⟨mm, rfl, h1, not_lt.mp h11⟩
          · constructor
            · intro h
              simp at h
            · rintro ⟨mm2, hm2, hle⟩
              cases hm2
              exact absurd h1 (not_lt.mpr hle)
        · rw [if_neg h1]
          refine ⟨?_, ?_, ?_⟩
          · constructor
            · intro h
              simp at h
            · rintro (h | ⟨mm2, hm2, hgt⟩)
              · cases h
              · cases hm2
                exact absurd hgt h11
          · constructor
            · intro h
              simp at h
            · rintro ⟨mm2, hm2, hgt, _⟩
              cases hm2
              exact absurd hgt h1
          · simp only [true_iff]
            exact ⟨mm, rfl, not_lt.mp h1⟩

/-- Witness for C5: mean motion exactly 11 classifies MEO, not LEO. -/
theorem orbit_characterization_witness :
    classify_orbit { mean_motion := some (PyVal.num 11) } = "MEO" := by
  apply (orbit_characterization _).2.1.mpr
  exact ⟨11, rfl, by norm_num, by norm_num⟩

/-- Counterexample to C1: a record with positive apogee 420 and perigee 410
but a non-numeric mean-motion field gets altitude 0, not
round((420+410)/2) = 415 — `calculate_altitude` converts all three fields
before branching, so the mean-motion fault reaches the `except` arm. -/
theorem altitude_nonnumeric_mean_motion_counterexample :
    calculate_altitude
      { mean_motion := some PyVal.nonNumeric,
        apogee := some (PyVal.num 420),
        perigee := some (PyVal.num 410) } = 0
    ∧ pyRound (((420 : ℚ) + 410) / 2) = 415 := by
  constructor
  · rfl
  · have : ((420 : ℚ) + 410) / 2 = ((415 : ℤ) : ℚ) := by norm_num
    rw [this, pyRound_eq_of_lt_half _ 415 (by norm_num) (by norm_num)]

/-- C1 amended: for every record whose apogee, perigee and mean-motion
fields all convert (an absent field converts to 0), with apogee and perigee
positive, altitude = round((apogee+perigee)/2) regardless of the converted
mean-motion value; but a non-numeric mean motion makes the whole derivation
return 0 instead. -/
theorem altitude_avg_of_apogee_perigee (obj : RawRecord) (a p mm : ℚ)
    (ha : floatOf obj.apogee = some a) (hp : floatOf obj.perigee = some p)
    (hm : floatOf obj.mean_motion = some mm) (hap : 0 < a) (hpp : 0 < p) :
    calculate_altitude obj = pyRound ((a + p) / 2) := by
  unfold calculate_altitude
  rw [ha, hp, hm]
  dsimp only
  rw [if_pos ⟨hap, hpp⟩]

/-- Witness for C1: apogee 420, perigee 410, absent mean motion (reads as
0) gives altitude 415. -/
theorem altitude_avg_of_apogee_perigee_witness :
    calculate_altitude
      { apogee := some (PyVal.num 420),
        perigee := some (PyVal.num 410) } = 415 := by
  rw [altitude_avg_of_apogee_perigee
    { apogee := some (PyVal.num 420), perigee := some (PyVal.num 410) }
    420 410 0 rfl rfl rfl (by norm_num) (by norm_num)]
  have : ((420 : ℚ) + 410) / 2 = ((415 : ℤ) : ℚ) := by norm_num
  rw [this, pyRound_eq_of_lt_half _ 415 (by norm_num) (by norm_num)]

/-- Counterexample to C2: a record whose mean-motion field is non-numeric
produces no enriched object at all — the `float()` fault in the velocity
line propagates out of the derivation to the per-record handler, which
drops the record, rather than being mapped to a safe default velocity. -/
theorem velocity_fault_drops_record_counterexample :
    process_record
      { mean_motion := some PyVal.nonNumeric,
        apogee := some (PyVal.num 500),
        perigee := some (PyVal.num 480) } = none
    ∧ processObjects
      [{ mean_motion := some PyVal.nonNumeric,
         apogee := some (PyVal.num 500),
         perigee := some (PyVal.num 480) }] = [] := by
  exact ⟨rfl, rfl⟩

/-- C2 amended: for every record whose mean-motion field converts (absent
defaults to 0), the enriched velocity is round(meanMotion × 0.1, 2); a
conversion fault in the velocity computation is NOT caught inside the
derivation — it escapes to the per-record handler and the whole record is
omitted from the output. -/
theorem velocity_formula_and_fault_propagation (obj : RawRecord) :
    (∀ mm : ℚ, floatOf obj.mean_motion = some mm →
      ∃ po : ProcessedObj, process_record obj = some po ∧
        po.velocity = pyRound2 (mm * 0.1))
    ∧ (floatOf obj.mean_motion = none → process_record obj = none) := by
  constructor
  · intro mm hm
    unfold process_record
    rw [hm]
    exact ⟨_, rfl, rfl⟩
  · intro hm
    unfold process_record
    rw [hm]

/-- Witness for C2: the spec scenario mean motion 15.5 gives a record whose
velocity is round(15.5 × 0.1, 2) = 1.55. -/
theorem velocity_formula_and_fault_propagation_witness :
    ∃ po : ProcessedObj,
      process_record { mean_motion := some (PyVal.num 15.5) } = some po ∧
        po.velocity = pyRound2 (15.5 * 0.1) :=
  (velocity_formula_and_fault_propagation _).1 15.5 rfl

theorem length_filterMap_of_isSome {α β : Type} (f : α → Option β) :
    ∀ l : List α, (∀ r ∈ l, (f r).isSome) → (l.filterMap f).length = l.length := by
  intro l
  induction l with
  | nil => intro _; rfl
  | cons a t ih =>
      intro hl
      obtain ⟨b, hb⟩ :=
        Option.isSome_iff_exists.mp (hl a (List.mem_cons_self a t))
      rw [List.filterMap_cons_some hb]
      rw [List.length_cons, ih (fun r hr => hl r (List.mem_cons_of_mem a hr))]
      rfl

/-- C6: a batch of a prefix and suffix of well-formed records around one
malformed record (one whose processing raises, e.g. non-numeric mean
motion) enriches to exactly the enrichments of the prefix followed by those
of the suffix, in input order with the failed record simply omitted, and
the output length is the number of well-formed records; the pipeline is a
total function, so no exception reaches the caller. -/
theorem enrichment_drops_only_malformed (pre post : List RawRecord)
    (bad : RawRecord) (hbad : process_record bad = none)
    (hpre : ∀ r ∈ pre, (process_record r).isSome)
    (hpost : ∀ r ∈ post, (process_record r).isSome) :
    processObjects (pre ++ bad :: post) =
      processObjects pre ++ processObjects post
    ∧ (processObjects (pre ++ bad :: post)).length =
      pre.length + post.length := by
  have h1 : processObjects (pre ++ bad :: post) =
      processObjects pre ++ processObjects post := by
    unfold processObjects
    rw [List.filterMap_append, List.filterMap_cons_none hbad]
  refine ⟨h1, ?_⟩
  rw [h1, List.length_append]
  unfold processObjects
  rw [length_filterMap_of_isSome process_record pre hpre,
    length_filterMap_of_isSome process_record post hpost]

/-- Witness for C6: a three-record batch whose middle record has a
non-numeric mean motion enriches to the two outer records, length 2. -/
theorem enrichment_drops_only_malformed_witness :
    processObjects
      [{ mean_motion := some (PyVal.num 12) },
       { mean_motion := some PyVal.nonNumeric },
       { mean_motion := some (PyVal.num 3) }] =
      processObjects [{ mean_motion := some (PyVal.num 12) }] ++
        processObjects [{ mean_motion := some (PyVal.num 3) }]
    ∧ (processObjects
      [{ mean_motion := some (PyVal.num 12) },
       { mean_motion := some PyVal.nonNumeric },
       { mean_motion := some (PyVal.num 3) }]).length = 2 := by
  have h := enrichment_drops_only_malformed
    [{ mean_motion := some (PyVal.num 12) }]
    [{ mean_motion := some (PyVal.num 3) }]
    { mean_motion := some PyVal.nonNumeric }
    rfl
    (by intro r hr; simp only [List.mem_singleton] at hr; subst hr; rfl)
    (by intro r hr; simp only [List.mem_singleton] at hr; subst hr; rfl)
  simpa using h

/-- C7: from the not-authenticated state, `get_debris_data` issues the
login request first; if authentication fails it returns the failure value
(`None`) immediately with no catalog query issued; from the authenticated
state it issues no login request. -/
theorem fetch_authenticates_first (s : SessionState) (lr qr : UpResponse) :
    (s.authenticated = false →
      (get_debris_data s lr qr).2.2.head? = some Event.loginRequest
      ∧ ((authenticate s lr).2.1 = false →
          (get_debris_data s lr qr).2.1 = none
          ∧ Event.queryRequest ∉ (get_debris_data s lr qr).2.2))
    ∧ (s.authenticated = true →
        Event.loginRequest ∉ (get_debris_data s lr qr).2.2) := by
  constructor
  · intro hs
    cases lr with
    | transportError =>
        refine ⟨?_, fun _ => ⟨?_, ?_⟩⟩ <;>
          simp [get_debris_data, authenticate, hs]
    | status code body =>
        by_cases hc : code = 200
        · subst hc
          refine ⟨?_, fun hfail => ?_⟩
          · simp [get_debris_data, authenticate, hs]
          · exact absurd hfail (by simp [authenticate])
        · refine ⟨?_, fun _ => ⟨?_, ?_⟩⟩ <;>
            simp [get_debris_data, authenticate, hs, hc]
  · intro hs
    simp [get_debris_data, hs]

/-- Witness for C7: not authenticated and the login transport fails: the
trace starts with the login request, the fetch returns the failure value,
and no catalog query is issued. -/
theorem fetch_authenticates_first_witness :
    (get_debris_data initState UpResponse.transportError
        (UpResponse.status 200 (some []))).2.2.head? = some Event.loginRequest
    ∧ (get_debris_data initState UpResponse.transportError
        (UpResponse.status 200 (some []))).2.1 = none
    ∧ Event.queryRequest ∉ (get_debris_data initState UpResponse.transportError
        (UpResponse.status 200 (some []))).2.2 := by
  have h := (fetch_authenticates_first initState UpResponse.transportError
    (UpResponse.status 200 (some []))).1 rfl
  exact ⟨h.1, (h.2 rfl).1, (h.2 rfl).2⟩

/-- Counterexample to C8: calling `authenticate` in an already-authenticated
state with a 401 response returns `False` but leaves the flag `true`, not
`false` — a failed call leaves the flag at whatever value it had. -/
theorem authenticate_failure_flag_counterexample :
    (authenticate ⟨true⟩ (UpResponse.status 401 none)).2.1 = false
    ∧ (authenticate ⟨true⟩ (UpResponse.status 401 none)).1.authenticated = true := by
  exact ⟨rfl, rfl⟩

/-- C8 amended: `authenticate` returns true iff the login response has
status 200, in which case it sets the flag to true; on any non-200 response
or transport failure it returns false and leaves the state unchanged (so
the flag stays false exactly when it was false); exactly one login request
is issued per call, never a retry. -/
theorem authenticate_characterization (s : SessionState) (resp : UpResponse) :
    ((authenticate s resp).2.1 = true ↔
      ∃ body, resp = UpResponse.status 200 body)
    ∧ ((authenticate s resp).2.1 = true →
        (authenticate s resp).1.authenticated = true)
    ∧ ((authenticate s resp).2.1 = false → (authenticate s resp).1 = s)
    ∧ (authenticate s resp).2.2 = [Event.loginRequest] := by
  cases resp with
  | transportError => simp [authenticate]
  | status code body =>
      by_cases hc : code = 200
      · subst hc
        simp [authenticate]
      · simp [authenticate, hc]

/-- Witness for C8 (amended): a 200 login from the initial state returns
true and sets the flag. -/
theorem authenticate_characterization_witness :
    (authenticate initState (UpResponse.status 200 none)).2.1 = true
    ∧ (authenticate initState (UpResponse.status 200 none)).1.authenticated
      = true := by
  have h := authenticate_characterization initState (UpResponse.status 200 none)
  have hb : (authenticate initState (UpResponse.status 200 none)).2.1 = true :=
    h.1.mpr ⟨none, rfl⟩
  exact ⟨hb, h.2.1 hb⟩

/-- C9: when the session is authenticated and the catalog query succeeds
with an empty record list, the `/api/debris` handler returns the 500 error
payload, exactly as for a failed fetch, because `if not raw_data:` treats
the empty list like `None` (both are falsy). -/
theorem empty_fetch_returns_error (s : SessionState) (lr qr : UpResponse)
    (hs : s.authenticated = true) (hq : runQuery qr = some []) :
    (get_debris s lr qr).2 =
      DebrisResponse.error "Failed to fetch real space data" 500 := by
  unfold get_debris get_debris_data
  rw [hs]
  simp only [if_true]
  rw [hq]

/-- Witness for C9: authenticated state, query answers 200 with an empty
body: the endpoint returns the 500 error payload. -/
theorem empty_fetch_returns_error_witness :
    (get_debris ⟨true⟩ UpResponse.transportError
        (UpResponse.status 200 (some []))).2 =
      DebrisResponse.error "Failed to fetch real space data" 500 :=
  empty_fetch_returns_error ⟨true⟩ UpResponse.transportError
    (UpResponse.status 200 (some [])) rfl rfl

/-- C10: the `authenticated` flag is monotone over the process lifetime: it
starts false (`__init__`), only a status-200 login sets it (a true flag can
only come from a prior true flag or a 200 response), a failed `authenticate`
leaves the state exactly as it was, and neither `authenticate` nor the
fetch nor the endpoint handler ever resets a true flag to false. -/
theorem authenticated_flag_monotone :
    initState.authenticated = false
    ∧ (∀ (s : SessionState) (resp : UpResponse),
        s.authenticated = true → (authenticate s resp).1.authenticated = true)
    ∧ (∀ (s : SessionState) (resp : UpResponse),
        (authenticate s resp).2.1 = false → (authenticate s resp).1 = s)
    ∧ (∀ (s : SessionState) (resp : UpResponse),
        (authenticate s resp).1.authenticated = true →
          s.authenticated = true ∨ ∃ body, resp = UpResponse.status 200 body)
    ∧ (∀ (s : SessionState) (lr qr : UpResponse),
        s.authenticated = true →
          (get_debris_data s lr qr).1.authenticated = true)
    ∧ (∀ (s : SessionState) (lr qr : UpResponse),
        s.authenticated = true → (get_debris s lr qr).1.authenticated = true) := by
  have hauth : ∀ (s : SessionState) (resp : UpResponse),
      s.authenticated = true → (authenticate s resp).1.authenticated = true := by
    intro s resp hs
    cases resp with
    | transportError => exact hs
    | status code body =>
        by_cases hc : code = 200
        · subst hc
          simp [authenticate]
        · simpa [authenticate, hc] using hs
  have hfetch : ∀ (s : SessionState) (lr qr : UpResponse),
      s.authenticated = true →
        (get_debris_data s lr qr).1.authenticated = true := by
    intro s lr qr hs
    simp [get_debris_data, hs]
  refine ⟨rfl, hauth, ?_, ?_, hfetch, ?_⟩
  · intro s resp hfail
    cases resp with
    | transportError => rfl
    | status code body =>
        by_cases hc : code = 200
        · subst hc
          simp [authenticate] at hfail
        · simp [authenticate, hc]
  · intro s resp htrue
    cases resp with
    | transportError =>
        exact Or.inl htrue
    | status code body =>
        by_cases hc : code = 200
        · subst hc
          exact Or.inr ⟨body, rfl⟩
        · left
          simpa [authenticate, hc] using htrue
  · intro s lr qr hs
    have hfst : (get_debris s lr qr).1 = (get_debris_data s lr qr).1 := by
      unfold get_debris
      dsimp only
      split <;> rfl
    rw [hfst]
    exact hfetch s lr qr hs

/-- Witness for C10: a failed re-authentication from a true state keeps the
flag true, and a 200 login from the initial state can set it. -/
theorem authenticated_flag_monotone_witness :
    (authenticate ⟨true⟩ UpResponse.transportError).1.authenticated = true
    ∧ (get_debris ⟨true⟩ UpResponse.transportError
        UpResponse.transportError).1.authenticated = true := by
  exact ⟨authenticated_flag_monotone.2.1 ⟨true⟩ UpResponse.transportError rfl,
    authenticated_flag_monotone.2.2.2.2.2 ⟨true⟩ UpResponse.transportError
      UpResponse.transportError rfl⟩

theorem rpow_third_pow_cube {x : ℝ} (hx : 0 ≤ x) :
    ((x ^ (3 : ℕ) : ℝ)) ^ ((1 : ℝ)/3) = x := by
  rw [← Real.rpow_natCast x 3, ← Real.rpow_mul hx]
  norm_num

theorem lt_rpow_third {A x : ℝ} (hx : 0 ≤ x) (h : x ^ (3 : ℕ) < A) :
    x < A ^ ((1 : ℝ)/3) := by
  calc x = ((x ^ (3 : ℕ) : ℝ)) ^ ((1 : ℝ)/3) := (rpow_third_pow_cube hx).symm
    _ < A ^ ((1 : ℝ)/3) := Real.rpow_lt_rpow (pow_nonneg hx 3) h (by norm_num)

theorem rpow_third_lt {A x : ℝ} (hA : 0 ≤ A) (hx : 0 ≤ x)
    (h : A < x ^ (3 : ℕ)) : A ^ ((1 : ℝ)/3) < x := by
  calc A ^ ((1 : ℝ)/3) < ((x ^ (3 : ℕ) : ℝ)) ^ ((1 : ℝ)/3) :=
      Real.rpow_lt_rpow hA h (by norm_num)
    _ = x := rpow_third_pow_cube hx

/-- The Kepler arm of `calculate_altitude`, exposed for reuse: when the
apogee/perigee test fails and the converted mean motion is positive, the
result is `round(max(semi_major_axis - 6371, 0))`. -/
theorem calculate_altitude_kepler (obj : RawRecord) (a p mm : ℚ)
    (ha : floatOf obj.apogee = some a) (hp : floatOf obj.perigee = some p)
    (hm : floatOf obj.mean_motion = some mm)
    (hnap : ¬(0 < a ∧ 0 < p)) (hmm : 0 < mm) :
    calculate_altitude obj = pyRound (max (semiMajorAxis mm - 6371) (0 : ℝ)) := by
  unfold calculate_altitude
  rw [ha, hp, hm]
  dsimp only
  rw [if_neg hnap, if_pos hmm]

/-- The altitude formula exactly as claim C3 words it: angular rate
n = m·2π/86400 with the mathematical constant π, μ = 398600.4418,
altitude = (μ/n²)^(1/3) − 6371 (to be rounded and clamped by the caller). -/
noncomputable def specAltitudePi (m : ℚ) : ℝ :=
  ((398600.4418 : ℝ) / (((m : ℝ) * (2 * Real.pi) / 86400) ^ 2)) ^ ((1 : ℝ)/3)
    - 6371

/-- The same formula with the constant the source actually uses,
2 × 3.14159, in place of 2π. -/
noncomputable def specAltitudeApprox (m : ℚ) : ℝ :=
  ((398600.4418 : ℝ) / (((m : ℝ) * (2 * 3.14159) / 86400) ^ 2)) ^ ((1 : ℝ)/3)
    - 6371

theorem sma_cex_lower :
    (4251750589/500000 : ℝ) < semiMajorAxis (22143/2000) := by
  unfold semiMajorAxis
  dsimp only
  apply lt_rpow_third (by norm_num)
  push_cast
  norm_num

theorem sma_cex_upper :
    semiMajorAxis (22143/2000) < (8503501181/1000000 : ℝ) := by
  unfold semiMajorAxis
  dsimp only
  apply rpow_third_lt ?hA (by norm_num)
  case hA =>
    push_cast
    positivity
  push_cast
  norm_num

theorem specAltitudePi_cex_bounds :
    (533123941/250000 : ℝ) < specAltitudePi (22143/2000)
    ∧ specAltitudePi (22143/2000) < (533124393/250000 : ℝ) := by
  unfold specAltitudePi
  have hc : (((22143/2000 : ℚ) : ℝ)) = (22143/2000 : ℝ) := by norm_num
  rw [hc]
  have hpi1 : (3.141592 : ℝ) < Real.pi := Real.pi_gt_d6
  have hpi2 : Real.pi < (3.141593 : ℝ) := Real.pi_lt_d6
  have hn_pos : (0 : ℝ) < (22143/2000 : ℝ) * (2 * Real.pi) / 86400 := by
    have : (0 : ℝ) < Real.pi := Real.pi_pos
    positivity
  have hn_lo : (22143/2000 : ℝ) * (2 * 3.141592) / 86400 <
      (22143/2000 : ℝ) * (2 * Real.pi) / 86400 := by
    gcongr
  have hn_hi : (22143/2000 : ℝ) * (2 * Real.pi) / 86400 <
      (22143/2000 : ℝ) * (2 * 3.141593) / 86400 := by
    gcongr
  have hsq_lo : ((22143/2000 : ℝ) * (2 * 3.141592) / 86400) ^ 2 <
      ((22143/2000 : ℝ) * (2 * Real.pi) / 86400) ^ 2 := by
    apply pow_lt_pow_left₀ hn_lo (by norm_num) (by norm_num)
  have hsq_hi : ((22143/2000 : ℝ) * (2 * Real.pi) / 86400) ^ 2 <
      ((22143/2000 : ℝ) * (2 * 3.141593) / 86400) ^ 2 := by
    apply pow_lt_pow_left₀ hn_hi (le_of_lt hn_pos) (by norm_num)
  have hA_lo : (398600.4418 : ℝ) /
      (((22143/2000 : ℝ) * (2 * 3.141593) / 86400) ^ 2) <
      (398600.4418 : ℝ) / (((22143/2000 : ℝ) * (2 * Real.pi) / 86400) ^ 2) := by
    apply div_lt_div_of_pos_left (by norm_num) (by positivity) hsq_hi
  have hA_hi : (398600.4418 : ℝ) /
      (((22143/2000 : ℝ) * (2 * Real.pi) / 86400) ^ 2) <
      (398600.4418 : ℝ) /
        (((22143/2000 : ℝ) * (2 * 3.141592) / 86400) ^ 2) := by
    apply div_lt_div_of_pos_left (by norm_num) (by positivity) hsq_lo
  constructor
  · have hroot : (2125873941/250000 : ℝ) <
        ((398600.4418 : ℝ) /
          (((22143/2000 : ℝ) * (2 * Real.pi) / 86400) ^ 2)) ^ ((1 : ℝ)/3) := by
      apply lt_rpow_third (by norm_num)
      calc ((2125873941/250000 : ℝ)) ^ (3 : ℕ) <
          (398600.4418 : ℝ) /
            (((22143/2000 : ℝ) * (2 * 3.141593) / 86400) ^ 2) := by norm_num
        _ < _ := hA_lo
    linarith
  · have hroot : ((398600.4418 : ℝ) /
        (((22143/2000 : ℝ) * (2 * Real.pi) / 86400) ^ 2)) ^ ((1 : ℝ)/3) <
        (2125874393/250000 : ℝ) := by
      apply rpow_third_lt (by positivity) (by norm_num)
      calc (398600.4418 : ℝ) /
          (((22143/2000 : ℝ) * (2 * Real.pi) / 86400) ^ 2) <
          (398600.4418 : ℝ) /
            (((22143/2000 : ℝ) * (2 * 3.141592) / 86400) ^ 2) := hA_hi
        _ < ((2125874393/250000 : ℝ)) ^ (3 : ℕ) := by norm_num
    linarith

/-- Counterexample to C3: at mean motion m = 11.0715 (= 22143/2000
revolutions/day, no apogee/perigee), the code returns altitude 2133, while
the claim's formula with the exact constant 2π rounds to 2132 — the source
multiplies by 2 × 3.14159, not by 2π.  (The code value lies in
(2132.50117, 2132.50119); the exact-π value lies in (2132.4957, 2132.4976).) -/
theorem altitude_exact_pi_counterexample :
    calculate_altitude { mean_motion := some (PyVal.num (22143/2000)) } = 2133
    ∧ max (pyRound (specAltitudePi (22143/2000))) 0 = 2132 := by
  constructor
  · rw [calculate_altitude_kepler
      { mean_motion := some (PyVal.num (22143/2000)) } 0 0 (22143/2000)
      rfl rfl rfl (by norm_num) (by norm_num)]
    have h1 := sma_cex_lower
    have h2 := sma_cex_upper
    have hpos : (0 : ℝ) ≤ semiMajorAxis (22143/2000) - 6371 := by
      have : (6371 : ℝ) < 4251750589/500000 := by norm_num
      linarith
    rw [max_eq_left hpos]
    have : pyRound (semiMajorAxis (22143/2000) - 6371) = 2132 + 1 := by
      apply pyRound_eq_of_half_lt
      · have : ((2132 : ℤ) : ℝ) + 1/2 < 4251750589/500000 - 6371 := by
          norm_num
        linarith
      · have : (8503501181/1000000 : ℝ) - 6371 < ((2132 : ℤ) : ℝ) + 1 := by
          norm_num
        linarith
    rw [this]
    norm_num
  · have h := specAltitudePi_cex_bounds
    have : pyRound (specAltitudePi (22143/2000)) = 2132 := by
      apply pyRound_eq_of_lt_half
      · have : ((2132 : ℤ) : ℝ) ≤ 533123941/250000 := by norm_num
        linarith [h.1]
      · have : (533124393/250000 : ℝ) < ((2132 : ℤ) : ℝ) + 1/2 := by norm_num
        linarith [h.2]
    rw [this]
    decide

/-- C3 amended: for every record lacking positive apogee/perigee whose
fields all convert and whose mean motion m is positive, the altitude
derivation returns round(((398600.4418)/((m·2·3.14159/86400)²))^(1/3) −
6371) clamped below at 0 — the angular-rate conversion uses 2 × 3.14159, a
five-decimal truncation of 2π, not the exact mathematical constant. -/
theorem altitude_kepler_branch (obj : RawRecord) (a p mm : ℚ)
    (ha : floatOf obj.apogee = some a) (hp : floatOf obj.perigee = some p)
    (hm : floatOf obj.mean_motion = some mm)
    (hnap : ¬(0 < a ∧ 0 < p)) (hmm : 0 < mm) :
    calculate_altitude obj = max (pyRound (specAltitudeApprox mm)) 0 := by
  rw [calculate_altitude_kepler obj a p mm ha hp hm hnap hmm]
  rw [pyRound_max_zero]
  unfold semiMajorAxis specAltitudeApprox
  dsimp only
  have hbase : (398600.4418 : ℝ) /
      ((mm : ℝ) * 2 * 3.14159 / 86400 * ((mm : ℝ) * 2 * 3.14159 / 86400)) =
      (398600.4418 : ℝ) / (((mm : ℝ) * (2 * 3.14159) / 86400) ^ 2) := by
    ring
  rw [hbase]

/-- Witness for C3 (amended): the record with mean motion 14 and no
apogee/perigee takes the Kepler arm. -/
theorem altitude_kepler_branch_witness :
    calculate_altitude { mean_motion := some (PyVal.num 14) } =
      max (pyRound (specAltitudeApprox 14)) 0 :=
  altitude_kepler_branch { mean_motion := some (PyVal.num 14) } 0 0 14
    rfl rfl rfl (by norm_num) (by norm_num)
